import Mathlib

/-!
Shallow embedding of the anti-nuke security bot in `src/main.py`.

The bot's observable behaviour is modelled as pure functions over:
- `Guild` / `User` / `Channel`: the platform data visible to the bot;
- `St`: the module-level mutable dictionaries (`original_permissions`,
  `whitelisted_users`, `user_activity`), modelled as association lists;
- a trace `List Ev` of attempted platform calls, emitted in program order;
- an environment `Env : Ev → Bool` deciding whether each platform call
  succeeds (`false` models the call raising an exception).

Python dictionaries become association lists with `List.lookup`; a dict
assignment replaces the entry for the key.  Permission bitsets and
overwrite objects are opaque `Nat` values, since the code only stores and
replays them.
-/

namespace Guard

/-- A text channel: identifier, name, and its permission-overwrite list
(pairs of target id and opaque overwrite value), as read by
`channel.overwrites` in `backup_permissions`. -/
structure Channel where
  id : Nat
  name : String
  overwrites : List (Nat × Nat)
deriving Repr, DecidableEq

/-- A guild as seen by the bot: id, owner id, the default ("everyone") role
id and permission bitset, the bot's member/user id and the bot's top role
rank (`guild.me.top_role`), and the list of text channels. -/
structure Guild where
  id : Nat
  ownerId : Nat
  defaultRoleId : Nat
  botId : Nat
  botTopRole : Nat
  defaultPerms : Nat
  textChannels : List Channel
deriving Repr, DecidableEq

/-- An acting member: identifier and top role rank (`user.top_role`). -/
structure User where
  id : Nat
  topRole : Nat
deriving Repr, DecidableEq

/-- A permission snapshot stored in `original_permissions[guild.id]`:
the `'everyone'` permission bitset and the `'channels'` mapping from
channel id to its overwrite list. -/
structure Snap where
  everyone : Nat
  channels : List (Nat × List (Nat × Nat))
deriving Repr, DecidableEq

/-- The module-level mutable state of `main.py`: `original_permissions`,
`whitelisted_users` (guild id ↦ whitelisted user ids) and `user_activity`
(user id ↦ action label ↦ timestamp, in seconds). -/
structure St where
  original_permissions : List (Nat × Snap)
  whitelisted_users : List (Nat × List Nat)
  user_activity : List (Nat × List (String × Nat))
deriving Repr, DecidableEq

/-- An attempted platform call, in the order the code issues it.
`capture` records the per-channel permission reads done by
`backup_permissions`; all others are the mutating / messaging calls. -/
inductive Ev where
  | createAlertChannel (guildId : Nat)
  | sendEmbed (channelId : Nat) (actionType : String) (userId : Nat)
  | sendMsg (channelId : Nat) (msg : String)
  | capture (guildId : Nat)
  | ban (guildId : Nat) (userId : Nat) (reason : String)
  | editDefaultRole (guildId : Nat) (perms : Nat)
  | syncChannel (channelId : Nat)
  | setPermissions (channelId : Nat) (target : Nat) (overwrite : Nat)
  | deleteTarget (targetId : Nat) (reason : String)
deriving Repr, DecidableEq

/-- Which platform calls succeed (`true`) and which raise (`false`). -/
abbrev Env := Ev → Bool

/-- The environment in which every platform call succeeds. -/
def allOk : Env := fun _ => true

/-- Constant `ALERT_CHANNEL_NAME = "security-logs"` (main.py line 15). -/
def ALERT_CHANNEL_NAME : String := "security-logs"

/-- Function `is_whitelisted(guild, user)` (main.py lines 28-33): the guild owner is
always whitelisted, otherwise membership in `whitelisted_users.get(guild.id,
set())`. -/
def is_whitelisted (g : Guild) (u : User) (s : St) : Bool :=
  u.id == g.ownerId || ((s.whitelisted_users.lookup g.id).getD []).contains u.id

/-- The snapshot value built by `backup_permissions` (main.py lines 35-42)
from the guild's current default-role permissions and each text channel's
overwrite list. -/
def snapshotOf (g : Guild) : Snap :=
  { everyone := g.defaultPerms
    channels := g.textChannels.map fun c => (c.id, c.overwrites) }

/-- Function `backup_permissions(guild)` (main.py lines 35-42): dict assignment
`original_permissions[guild.id] = ...` — replaces any entry for that key. -/
def backup_permissions (g : Guild) (s : St) : St :=
  { s with original_permissions :=
      (g.id, snapshotOf g) :: s.original_permissions.filter fun p => p.1 != g.id }

/-- The guarded capture in `secure_ban_and_restore` (main.py lines 93-95):
`if guild.id not in original_permissions: await backup_permissions(guild)`.
Returns the new state and the read-trace (a `capture` event when the
backup actually runs). -/
def captureIfAbsent (g : Guild) (s : St) : St × List Ev :=
  if (s.original_permissions.lookup g.id).isSome then (s, [])
  else (backup_permissions g s, [Ev.capture g.id])

/-- The per-overwrite loop of `restore_permissions` (main.py lines 59-60):
`await channel.set_permissions(target, overwrite=overwrite)` for each stored
pair; the first failing call raises, aborting the restore. -/
def applyOverwrites (chId : Nat) (ows : List (Nat × Nat)) (env : Env) :
    Bool × List Ev :=
  match ows with
  | [] => (true, [])
  | (t, o) :: rest =>
    let e := Ev.setPermissions chId t o
    if env e then
      let r := applyOverwrites chId rest env
      (r.1, e :: r.2)
    else (false, [e])

/-- The per-channel loop of `restore_permissions` (main.py lines 56-60):
for each current text channel present in the snapshot, `channel.edit(
sync_permissions=True)` then each stored overwrite; any failure aborts. -/
def restoreChannels (chs : List Channel) (snapCh : List (Nat × List (Nat × Nat)))
    (env : Env) : Bool × List Ev :=
  match chs with
  | [] => (true, [])
  | c :: rest =>
    match snapCh.lookup c.id with
    | none => restoreChannels rest snapCh env
    | some ows =>
      let e := Ev.syncChannel c.id
      if env e then
        let r1 := applyOverwrites c.id ows env
        if r1.1 then
          let r2 := restoreChannels rest snapCh env
          (r2.1, e :: r1.2 ++ r2.2)
        else (false, e :: r1.2)
      else (false, [e])

/-- The body of `restore_permissions` once a snapshot is found: edit the
default role to the snapshotted permissions, then restore each channel
(main.py lines 49-65).  The try/except makes any failure return `False`
with the calls attempted so far. -/
def restoreWith (g : Guild) (snap : Snap) (env : Env) : Bool × List Ev :=
  let e := Ev.editDefaultRole g.id snap.everyone
  if env e then
    let r := restoreChannels g.textChannels snap.channels env
    (r.1, e :: r.2)
  else (false, [e])

/-- Function `restore_permissions(guild)` (main.py lines 44-65): returns `False` with
no platform calls when `guild.id not in original_permissions`, otherwise
replays the stored snapshot. -/
def restore_permissions (g : Guild) (s : St) (env : Env) : Bool × List Ev :=
  match s.original_permissions.lookup g.id with
  | none => (false, [])
  | some snap => restoreWith g snap env

/-- The id the platform assigns to a freshly created channel.  Modelled as
one more than the largest existing channel id (the platform guarantees
freshness; the code never inspects the id beyond sending to the channel). -/
def freshChannelId (g : Guild) : Nat :=
  (g.textChannels.map fun c => c.id).foldr max 0 + 1

/-- The alert channel created by `get_alert_channel` (main.py lines 72-80):
named `ALERT_CHANNEL_NAME`, with overwrites hiding it from the default role
(overwrite value 0 = read_messages False) and showing it to the bot
(overwrite value 1 = read_messages True). -/
def newAlertChannel (g : Guild) : Channel :=
  { id := freshChannelId g
    name := ALERT_CHANNEL_NAME
    overwrites := [(g.defaultRoleId, 0), (g.botId, 1)] }

/-- Function `get_alert_channel(guild)` (main.py lines 67-84): find the text channel
named `security-logs`; if absent, create it.  Any failure is caught and
returns `None`.  Returns the resolved channel, the guild as the platform now
sees it (creation appends the new channel), and the attempted calls. -/
def get_alert_channel (g : Guild) (env : Env) :
    Option Channel × Guild × List Ev :=
  match g.textChannels.find? (fun c => c.name == ALERT_CHANNEL_NAME) with
  | some ch => (some ch, g, [])
  | none =>
    let e := Ev.createAlertChannel g.id
    if env e then
      let ch := newAlertChannel g
      (some ch, { g with textChannels := g.textChannels ++ [ch] }, [e])
    else (none, g, [e])

/-- Function `secure_ban_and_restore(guild, user, reason)` (main.py lines 86-108):
skip if whitelisted; back up permissions if not already done; skip if the
user's top role is not below the bot's; ban; restore.  The surrounding
try/except turns a failed ban into `(False, "Error: ...")`; the environment
gives no exception text, so the message is the fixed stand-in
`"Error: ban failed"`.  Returns (success, message, new state, calls). -/
def secure_ban_and_restore (g : Guild) (u : User) (reason : String) (s : St)
    (env : Env) : Bool × String × St × List Ev :=
  if is_whitelisted g u s then
    (false, "User is whitelisted; ban skipped.", s, [])
  else
    let c := captureIfAbsent g s
    if g.botTopRole ≤ u.topRole then
      (false, "User has a higher role than the bot.", c.1, c.2)
    else
      let e := Ev.ban g.id u.id reason
      if env e then
        let rr := restore_permissions g c.1 env
        (true,
         "Banned successfully. Server " ++
           (if rr.1 then "restored" else "restore failed"),
         c.1, c.2 ++ e :: rr.2)
      else (false, "Error: ban failed", c.1, c.2 ++ [e])

/-- Python's `str.endswith`: the pattern is a suffix of the string,
as a test on the character lists. -/
def pyEndsWith (s pat : String) : Bool := pat.data.isSuffixOf s.data

/-- The action types subject to mitigation (main.py line 133). -/
def mitigationActions : List String :=
  ["channel_create", "role_create", "channel_delete", "role_delete", "bot_add"]

/-- The deletion step of `handle_suspicious_action` (main.py lines 138-143):
if a target was captured and the action type ends in `_create`, attempt
`target.delete(...)`; its own try/except suppresses any failure, so the call
is attempted (traced) regardless of the environment. -/
def tryDeleteTarget (action : String) (target : Option Nat) : List Ev :=
  match target with
  | some tid =>
    if pyEndsWith action "_create" then [Ev.deleteTarget tid "Suspicious creation"]
    else []
  | none => []

/-- The remainder of the try-block of `handle_suspicious_action` after the
alert embed was (successfully) sent or skipped (main.py lines 132-143):
conditionally mitigate, send the "Action taken" message (whose failure
raises out of the try-block, skipping the deletion), then conditionally
delete the created target.  `acc` is the trace emitted so far. -/
def afterAlert (g : Guild) (u : User) (action : String) (target : Option Nat)
    (s : St) (env : Env) (alertCh : Option Channel) (acc : List Ev) :
    St × List Ev :=
  if mitigationActions.contains action then
    let r := secure_ban_and_restore g u ("Suspicious: " ++ action) s env
    match alertCh with
    | some ch =>
      let e2 := Ev.sendMsg ch.id ("Action taken: " ++ r.2.1)
      if env e2 then
        (r.2.2.1, acc ++ r.2.2.2 ++ [e2] ++ tryDeleteTarget action target)
      else (r.2.2.1, acc ++ r.2.2.2 ++ [e2])
    | none => (r.2.2.1, acc ++ r.2.2.2 ++ tryDeleteTarget action target)
  else (s, acc ++ tryDeleteTarget action target)

/-- Function `handle_suspicious_action(guild, user, action_type, target)` (main.py
lines 110-146): return immediately if the user's top role is not below the
bot's; resolve the alert channel; inside one try-block, send the alert embed
(a failed send raises, and the except at line 145 swallows it, skipping
mitigation and deletion), then mitigate for the listed action types, then
delete a created target.  Returns the new module state and the attempted
platform calls in order. -/
def handle_suspicious_action (g : Guild) (u : User) (action : String)
    (target : Option Nat) (s : St) (env : Env) : St × List Ev :=
  if g.botTopRole ≤ u.topRole then (s, [])
  else
    let r := get_alert_channel g env
    match r.1 with
    | some ch =>
      let e1 := Ev.sendEmbed ch.id action u.id
      if env e1 then afterAlert r.2.1 u action target s env (some ch) (r.2.2 ++ [e1])
      else (s, r.2.2 ++ [e1])
    | none => afterAlert r.2.1 u action target s env none r.2.2

/-- Task `cleanup_activity` (main.py lines 216-225): every user keeps only the
activity entries with `now - timestamp < timedelta(hours=1)`; timestamps in
seconds.  (With truncated `Nat` subtraction a future timestamp gives
`now - ts = 0`, kept — matching the negative-timedelta comparison.) -/
def cleanup_activity (now : Nat) (ua : List (Nat × List (String × Nat))) :
    List (Nat × List (String × Nat)) :=
  ua.map fun p => (p.1, p.2.filter fun a => now - a.2 < 3600)

/-- Replace the whitelist entry of guild `gid` with `ids`
(`whitelisted_users[guild_id].add/.remove` mutate the stored set). -/
def wlSet (wl : List (Nat × List Nat)) (gid : Nat) (ids : List Nat) :
    List (Nat × List Nat) :=
  wl.map fun p => if p.1 == gid then (p.1, ids) else p

/-- The `!whitelist` command (main.py lines 248-299): owner-only; ensures a
whitelist entry for the guild; `add`/`remove`/`list` on it.  Returns the new
module state and the reply text (emoji stripped). -/
def whitelist_command (g : Guild) (authorId : Nat) (action : String)
    (member : Option User) (s : St) : St × String :=
  if g.ownerId != authorId then
    (s, "Only the server owner can use the whitelist command.")
  else
    let s1 :=
      if (s.whitelisted_users.lookup g.id).isSome then s
      else { s with whitelisted_users := (g.id, []) :: s.whitelisted_users }
    let cur := (s1.whitelisted_users.lookup g.id).getD []
    if action.toLower == "add" then
      match member with
      | none => (s1, "Please mention a member to add to the whitelist.")
      | some m =>
        if m.id == g.ownerId then
          (s1, "The guild owner is automatically whitelisted.")
        else
          ({ s1 with whitelisted_users :=
              (wlSet s1.whitelisted_users g.id
                (if cur.contains m.id then cur else cur ++ [m.id])) },
           "has been added to the whitelist.")
    else if action.toLower == "remove" then
      match member with
      | none => (s1, "Please mention a member to remove from the whitelist.")
      | some m =>
        if cur.contains m.id then
          ({ s1 with whitelisted_users :=
              (wlSet s1.whitelisted_users g.id (cur.filter fun x => x != m.id)) },
           "has been removed from the whitelist.")
        else (s1, "That member is not in the whitelist.")
    else if action.toLower == "list" then (s1, "Whitelisted members listed.")
    else (s1, "Invalid action. Use add, remove, or list.")

/-- One top-level operation of the running process: an escalatable event
reaching `handle_suspicious_action`, the `!unlock` command, the
`!whitelist` command, or one pass of the 30-minute `cleanup_activity`
loop. -/
inductive Op where
  | event (g : Guild) (u : User) (action : String) (target : Option Nat) (env : Env)
  | unlockCmd (g : Guild) (env : Env)
  | whitelistCmd (g : Guild) (authorId : Nat) (action : String) (member : Option User)
  | prune (now : Nat)

/-- Effect of one operation on the module-level state.  `!unlock` only calls
`restore_permissions`, which reads the state and issues platform calls but
never writes the module dictionaries. -/
def step (s : St) (o : Op) : St :=
  match o with
  | .event g u a t env => (handle_suspicious_action g u a t s env).1
  | .unlockCmd _ _ => s
  | .whitelistCmd g aid act mem => (whitelist_command g aid act mem s).1
  | .prune now => { s with user_activity := cleanup_activity now s.user_activity }

/-- The module state at process start: all three dictionaries empty
(main.py lines 22-26). -/
def initialSt : St := { original_permissions := [], whitelisted_users := [], user_activity := [] }

/-- Function `handle_suspicious_action` invoked `n` times in sequence on the same
event, threading the state and concatenating the traces. -/
def handleIter (n : Nat) (g : Guild) (u : User) (action : String)
    (target : Option Nat) (s : St) (env : Env) : St × List Ev :=
  match n with
  | 0 => (s, [])
  | n + 1 =>
    let r := handle_suspicious_action g u action target s env
    let r2 := handleIter n g u action target r.1 env
    (r2.1, r.2 ++ r2.2)

/-- The gating decision of the code, combined from its guards: the rank
check at main.py line 116 (and 97-99) and the owner/whitelist check at
line 90.  `true` means ALLOW (no punitive action), `false` ESCALATE. -/
def decideAllow (g : Guild) (u : User) (s : St) : Bool :=
  is_whitelisted g u s || decide (g.botTopRole ≤ u.topRole)

/-- Is this call the alert embed? -/
def isAlertEv : Ev → Bool
  | .sendEmbed _ _ _ => true
  | _ => false

/-- Is this call the snapshot capture? -/
def isCaptureEv : Ev → Bool
  | .capture _ => true
  | _ => false

/-- Is this call a ban? -/
def isBanEv : Ev → Bool
  | .ban _ _ _ => true
  | _ => false

/-- Is this call part of a permission restore (default-role edit, channel
sync, or overwrite application)? -/
def isRestoreEv : Ev → Bool
  | .editDefaultRole _ _ => true
  | .syncChannel _ => true
  | .setPermissions _ _ _ => true
  | _ => false

/-- Is this call a target deletion? -/
def isDeleteEv : Ev → Bool
  | .deleteTarget _ _ => true
  | _ => false

/-- Is this call the plain "Action taken" status message? -/
def isMsgEv : Ev → Bool
  | .sendMsg _ _ => true
  | _ => false

/-- The observable effect set of a response trace: whether it contains an
alert embed, a ban, any permission-restore call, and any deletion. -/
def effects (tr : List Ev) : Bool × Bool × Bool × Bool :=
  (tr.any isAlertEv, tr.any isBanEv, tr.any isRestoreEv, tr.any isDeleteEv)

/-! Concrete scenario from the spec (§8): guild with default permissions
`P0 = 7`; channel `C1` (id 1) carrying the single overwrite `O1 = (10, 5)`;
the actor (id 9, rank 3, below the bot's rank 10, not owner, not
whitelisted) has just created channel `C2` (id 2).  The guild already has a
`security-logs` channel (id 5) so alert resolution finds it. -/

/-- The pre-existing alert channel of the scenario guild. -/
def chSec : Channel := { id := 5, name := "security-logs", overwrites := [] }

/-- Scenario channel `C1`, carrying overwrite `O1` = target 10 ↦ value 5. -/
def chGeneral : Channel := { id := 1, name := "general", overwrites := [(10, 5)] }

/-- Scenario channel `C2`, just created by the actor. -/
def chEvil : Channel := { id := 2, name := "evil", overwrites := [] }

/-- The scenario guild. -/
def guildA : Guild :=
  { id := 100, ownerId := 1, defaultRoleId := 50, botId := 51, botTopRole := 10,
    defaultPerms := 7, textChannels := [chSec, chGeneral, chEvil] }

/-- The scenario actor: non-owner, non-whitelisted, top role rank 3 below
the bot's rank 10. -/
def actorA : User := { id := 9, topRole := 3 }

/-- An actor whose top role rank equals the bot's (not below it). -/
def actorHigh : User := { id := 8, topRole := 10 }

/-- The guild owner acting as a member (id 1 = `guildA.ownerId`). -/
def actorOwner : User := { id := 1, topRole := 2 }

/-- A guild with no `security-logs` channel, so alert resolution must
create one. -/
def guildNoSec : Guild :=
  { id := 200, ownerId := 1, defaultRoleId := 50, botId := 51, botTopRole := 10,
    defaultPerms := 7, textChannels := [chGeneral] }

/-- Environment in which sending the alert embed raises and every other
platform call succeeds. -/
def envSendFail : Env := fun e =>
  match e with
  | .sendEmbed _ _ _ => false
  | _ => true

/-- Environment in which creating the alert channel raises and every other
platform call succeeds. -/
def envCreateFail : Env := fun e =>
  match e with
  | .createAlertChannel _ => false
  | _ => true

/-- Environment in which the ban call raises and every other platform call
succeeds. -/
def envBanFail : Env := fun e =>
  match e with
  | .ban _ _ _ => false
  | _ => true

/-- After `backup_permissions`, the store holds the snapshot of the guild's
current state under the guild's id. -/
theorem lookup_backup (g : Guild) (s : St) :
    (backup_permissions g s).original_permissions.lookup g.id
      = some (snapshotOf g) := by
  simp [backup_permissions, List.lookup]

/-- C1 counterexample: in the spec's own scenario the claimed order is
false — the permission snapshot is NOT captured before the alert is posted
(the alert embed is sent first; the capture happens later, inside
`secure_ban_and_restore`). -/
theorem C1_claimed_order_refuted :
    ¬ ((handle_suspicious_action guildA actorA "channel_create" (some 2)
          initialSt allOk).2.findIdx isCaptureEv <
       (handle_suspicious_action guildA actorA "channel_create" (some 2)
          initialSt allOk).2.findIdx isAlertEv) := by
  decide

/-- C1 (amended): in the scenario, the response sequence performs, in this
order: post the alert, capture the permission snapshot {P0, {C1 ↦ O1}} (the
created channel C2 and the alert channel are also in the snapshot, having
been read at capture time), ban the actor, restore default permissions to
P0, restore each snapshotted channel's overwrites (C1's overwrite O1
re-applied), and delete the created channel C2. -/
theorem C1_response_sequence :
    handle_suspicious_action guildA actorA "channel_create" (some 2)
        initialSt allOk =
      ({ original_permissions :=
           [(100, { everyone := 7, channels := [(5, []), (1, [(10, 5)]), (2, [])] })],
         whitelisted_users := [], user_activity := [] },
       [Ev.sendEmbed 5 "channel_create" 9,
        Ev.capture 100,
        Ev.ban 100 9 "Suspicious: channel_create",
        Ev.editDefaultRole 100 7,
        Ev.syncChannel 5,
        Ev.syncChannel 1,
        Ev.setPermissions 1 10 5,
        Ev.syncChannel 2,
        Ev.sendMsg 5 "Action taken: Banned successfully. Server restored",
        Ev.deleteTarget 2 "Suspicious creation"]) := by
  decide

/-- C5: `restore_permissions` on a guild with no stored snapshot returns
failure and attempts zero platform calls. -/
theorem C5_restore_without_snapshot (g : Guild) (s : St) (env : Env)
    (h : s.original_permissions.lookup g.id = none) :
    restore_permissions g s env = (false, []) := by
  simp [restore_permissions, h]

/-- C5 witness: the initial state stores no snapshot for the scenario
guild, and restoring it fails with an empty trace. -/
theorem C5_witness :
    initialSt.original_permissions.lookup guildA.id = none ∧
      restore_permissions guildA initialSt allOk = (false, []) :=
  ⟨rfl, C5_restore_without_snapshot guildA initialSt allOk rfl⟩

/-- C6: capturing twice in sequence for the same guild leaves the stored
state exactly as after the first capture and performs no further reads —
the second `captureIfAbsent` is a no-op. -/
theorem C6_capture_idempotent (g : Guild) (s : St) :
    captureIfAbsent g (captureIfAbsent g s).1 = ((captureIfAbsent g s).1, []) := by
  by_cases h : (s.original_permissions.lookup g.id).isSome
  · simp [captureIfAbsent, h]
  · simp [captureIfAbsent, h, lookup_backup]

/-- The rank guard at main.py line 116: an actor whose top role is not
below the bot's is ignored entirely, with no state change and no calls. -/
theorem handle_high_rank (g : Guild) (u : User) (action : String)
    (target : Option Nat) (s : St) (env : Env) (h : g.botTopRole ≤ u.topRole) :
    handle_suspicious_action g u action target s env = (s, []) := by
  simp [handle_suspicious_action, h]

/-- The capture trace contains only `capture` reads, never a ban, restore
or delete call. -/
theorem captureIfAbsent_trace_benign (g : Guild) (s : St) :
    ∀ e ∈ (captureIfAbsent g s).2,
      isBanEv e = false ∧ isRestoreEv e = false ∧ isDeleteEv e = false := by
  unfold captureIfAbsent
  split <;> simp [isBanEv, isRestoreEv, isDeleteEv]

/-- C2: an actor whose top role rank is greater than or equal to the bot's
is ALLOWed; any number of repeated invocations of the handler leave the
state untouched and attempt no platform call at all; and even a direct call
of `secure_ban_and_restore` for such an actor issues no ban, restore or
delete call. -/
theorem C2_high_rank_allow (g : Guild) (u : User) (s : St)
    (h : g.botTopRole ≤ u.topRole) :
    decideAllow g u s = true ∧
    (∀ n action target env, handleIter n g u action target s env = (s, [])) ∧
    (∀ reason env,
      ((secure_ban_and_restore g u reason s env).2.2.2.all
          fun e => !(isBanEv e || isRestoreEv e || isDeleteEv e)) = true) := by
  refine ⟨by simp [decideAllow, h], ?_, ?_⟩
  · intro n action target env
    induction n with
    | zero => rfl
    | succ n ih => simp [handleIter, handle_high_rank _ _ _ _ _ _ h, ih]
  · intro reason env
    by_cases hwl : is_whitelisted g u s = true
    · simp [secure_ban_and_restore, hwl]
    · simp only [Bool.not_eq_true] at hwl
      simp only [secure_ban_and_restore, hwl, h, if_true, if_false,
        Bool.false_eq_true, List.all_eq_true]
      intro e he
      have hb := captureIfAbsent_trace_benign g s e he
      simp [hb.1, hb.2.1, hb.2.2]

/-- C2 witness: an actor of rank 10 against a bot of rank 10 — three
repeated invocations are a no-op, and a direct ban attempt issues no
mitigating call. -/
theorem C2_witness :
    guildA.botTopRole ≤ actorHigh.topRole ∧
    decideAllow guildA actorHigh initialSt = true ∧
    handleIter 3 guildA actorHigh "channel_create" (some 2) initialSt allOk
      = (initialSt, []) ∧
    ((secure_ban_and_restore guildA actorHigh "r" initialSt allOk).2.2.2.all
        fun e => !(isBanEv e || isRestoreEv e || isDeleteEv e)) = true :=
  ⟨by decide,
   (C2_high_rank_allow guildA actorHigh initialSt (by decide)).1,
   (C2_high_rank_allow guildA actorHigh initialSt (by decide)).2.1 3
     "channel_create" (some 2) allOk,
   (C2_high_rank_allow guildA actorHigh initialSt (by decide)).2.2 "r" allOk⟩

/-- For a non-whitelisted actor of lower rank, `secure_ban_and_restore`
always attempts the ban call (whether or not the platform accepts it). -/
theorem ban_mem_secure_ban (g : Guild) (u : User) (reason : String) (s : St)
    (env : Env) (hwl : is_whitelisted g u s = false)
    (hrank : ¬ g.botTopRole ≤ u.topRole) :
    Ev.ban g.id u.id reason ∈ (secure_ban_and_restore g u reason s env).2.2.2 := by
  simp only [secure_ban_and_restore, hwl, Bool.false_eq_true, if_false, hrank]
  split <;> simp

/-- C3 counterexample: in the scenario guild (alert channel present, actor
escalated, `channel_delete` subject to mitigation), when posting the alert
message fails, no ban and no restore call is attempted — the whole response
sequence after the alert is skipped, so the claim that an alert-posting
failure "does not prevent the subsequent mitigation" is false. -/
theorem C3_post_failure_blocks_mitigation :
    is_whitelisted guildA actorA initialSt = false ∧
    actorA.topRole < guildA.botTopRole ∧
    mitigationActions.contains "channel_delete" = true ∧
    handle_suspicious_action guildA actorA "channel_delete" none initialSt
        envSendFail
      = (initialSt, [Ev.sendEmbed 5 "channel_delete" 9]) := by
  decide

/-- C3 (amended): a failure while RESOLVING the alert channel (the channel
is absent and creating it fails, so `get_alert_channel` returns null) does
not prevent the subsequent mitigation: the ban is still attempted.  (A
failure while POSTING the alert message, by contrast, aborts the sequence —
see the counterexample.) -/
theorem C3_resolution_failure_nonblocking (g : Guild) (u : User)
    (action : String) (target : Option Nat) (s : St) (env : Env)
    (hrank : ¬ g.botTopRole ≤ u.topRole)
    (hfind : g.textChannels.find? (fun c => c.name == ALERT_CHANNEL_NAME) = none)
    (hcreate : env (Ev.createAlertChannel g.id) = false)
    (hwl : is_whitelisted g u s = false)
    (hact : mitigationActions.contains action = true) :
    Ev.ban g.id u.id ("Suspicious: " ++ action) ∈
      (handle_suspicious_action g u action target s env).2 := by
  have hb := ban_mem_secure_ban g u ("Suspicious: " ++ action) s env hwl hrank
  simp only [handle_suspicious_action, hrank, if_false, get_alert_channel, hfind,
    hcreate, Bool.false_eq_true, afterAlert, hact, if_true, List.mem_append]
  tauto

/-- C3 witness: a guild without a `security-logs` channel, in an
environment where channel creation fails — the ban is still attempted. -/
theorem C3_witness :
    Ev.ban guildNoSec.id actorA.id ("Suspicious: " ++ "channel_delete") ∈
      (handle_suspicious_action guildNoSec actorA "channel_delete" none
          initialSt envCreateFail).2 :=
  C3_resolution_failure_nonblocking guildNoSec actorA "channel_delete" none
    initialSt envCreateFail (by decide) (by decide) rfl (by decide) (by decide)

/-- Whitelisted actors (the owner included) make `secure_ban_and_restore`
return immediately: no state change, no platform calls. -/
theorem secure_ban_whitelisted (g : Guild) (u : User) (reason : String)
    (s : St) (env : Env) (h : is_whitelisted g u s = true) :
    secure_ban_and_restore g u reason s env
      = (false, "User is whitelisted; ban skipped.", s, []) := by
  simp [secure_ban_and_restore, h]

/-- Alert-channel resolution attempts at most the channel-creation call. -/
theorem get_alert_trace (g : Guild) (env : Env) :
    ∀ e ∈ (get_alert_channel g env).2.2, e = Ev.createAlertChannel g.id := by
  unfold get_alert_channel
  split
  · simp
  · dsimp only
    split <;> simp

/-- Alert-channel resolution can only append a channel: the guild's id,
owner, bot rank, and default permissions are untouched. -/
theorem get_alert_guild_fields (g : Guild) (env : Env) :
    (get_alert_channel g env).2.1.id = g.id ∧
    (get_alert_channel g env).2.1.ownerId = g.ownerId ∧
    (get_alert_channel g env).2.1.botTopRole = g.botTopRole ∧
    (get_alert_channel g env).2.1.defaultPerms = g.defaultPerms := by
  unfold get_alert_channel
  split
  · exact ⟨rfl, rfl, rfl, rfl⟩
  · dsimp only
    split <;> exact ⟨rfl, rfl, rfl, rfl⟩

/-- Whitelist membership is unaffected by alert-channel creation. -/
theorem get_alert_preserves_wl (g : Guild) (env : Env) (u : User) (s : St) :
    is_whitelisted (get_alert_channel g env).2.1 u s = is_whitelisted g u s := by
  unfold is_whitelisted
  rw [(get_alert_guild_fields g env).1, (get_alert_guild_fields g env).2.1]

/-- The deletion step emits no ban and no restore call. -/
theorem tryDelete_trace (action : String) (target : Option Nat) :
    ∀ e ∈ tryDeleteTarget action target,
      isBanEv e = false ∧ isRestoreEv e = false := by
  unfold tryDeleteTarget
  split
  · split <;> simp [isBanEv, isRestoreEv]
  · simp

/-- Every call in the post-alert tail is either carried over from `acc`,
the status message, a call of the mitigation, or the deletion. -/
theorem afterAlert_trace_sub (g : Guild) (u : User) (action : String)
    (target : Option Nat) (s : St) (env : Env) (alertCh : Option Channel)
    (acc : List Ev) :
    ∀ e ∈ (afterAlert g u action target s env alertCh acc).2,
      e ∈ acc ∨ isMsgEv e = true ∨
      e ∈ (secure_ban_and_restore g u ("Suspicious: " ++ action) s env).2.2.2 ∨
      e ∈ tryDeleteTarget action target := by
  intro e he
  unfold afterAlert at he
  rcases alertCh with _ | ch <;> dsimp only at he
  · split at he
    · simp only [List.mem_append] at he
      rcases he with (he | he) | he
      · exact Or.inl he
      · exact Or.inr (Or.inr (Or.inl he))
      · exact Or.inr (Or.inr (Or.inr he))
    · simp only [List.mem_append] at he
      rcases he with he | he
      · exact Or.inl he
      · exact Or.inr (Or.inr (Or.inr he))
  · split at he
    · split at he
      · simp only [List.mem_append, List.mem_singleton] at he
        rcases he with ((he | he) | he) | he
        · exact Or.inl he
        · exact Or.inr (Or.inr (Or.inl he))
        · subst he; exact Or.inr (Or.inl rfl)
        · exact Or.inr (Or.inr (Or.inr he))
      · simp only [List.mem_append, List.mem_singleton] at he
        rcases he with (he | he) | he
        · exact Or.inl he
        · exact Or.inr (Or.inr (Or.inl he))
        · subst he; exact Or.inr (Or.inl rfl)
    · simp only [List.mem_append] at he
      rcases he with he | he
      · exact Or.inl he
      · exact Or.inr (Or.inr (Or.inr he))

/-- Every call in a handled event's trace is the alert-channel creation,
the alert embed, the status message, a call of the mitigation, or the
deletion of the created target. -/
theorem handle_trace_sub (g : Guild) (u : User) (action : String)
    (target : Option Nat) (s : St) (env : Env) :
    ∀ e ∈ (handle_suspicious_action g u action target s env).2,
      e = Ev.createAlertChannel g.id ∨ isAlertEv e = true ∨ isMsgEv e = true ∨
      e ∈ (secure_ban_and_restore (get_alert_channel g env).2.1 u
            ("Suspicious: " ++ action) s env).2.2.2 ∨
      e ∈ tryDeleteTarget action target := by
  intro e he
  have hga := get_alert_trace g env
  unfold handle_suspicious_action at he
  by_cases hr : g.botTopRole ≤ u.topRole
  · simp [hr] at he
  · simp only [hr, if_false] at he
    rcases hAC : (get_alert_channel g env).1 with _ | ch <;> rw [hAC] at he <;>
      dsimp only at he
    · rcases afterAlert_trace_sub _ _ _ _ _ _ _ _ e he with h1 | h1 | h1 | h1
      · exact Or.inl (hga e h1)
      · exact Or.inr (Or.inr (Or.inl h1))
      · exact Or.inr (Or.inr (Or.inr (Or.inl h1)))
      · exact Or.inr (Or.inr (Or.inr (Or.inr h1)))
    · split at he
      · rcases afterAlert_trace_sub _ _ _ _ _ _ _ _ e he with h1 | h1 | h1 | h1
        · simp only [List.mem_append, List.mem_singleton] at h1
          rcases h1 with h1 | h1
          · exact Or.inl (hga e h1)
          · subst h1; exact Or.inr (Or.inl rfl)
        · exact Or.inr (Or.inr (Or.inl h1))
        · exact Or.inr (Or.inr (Or.inr (Or.inl h1)))
        · exact Or.inr (Or.inr (Or.inr (Or.inr h1)))
      · simp only [List.mem_append, List.mem_singleton] at he
        rcases he with he | he
        · exact Or.inl (hga e he)
        · subst he; exact Or.inr (Or.inl rfl)

/-- C4: every actor who is the guild owner and every whitelisted actor is
ALLOWed: whatever the action type, the target, and the environment, the
response never attempts a ban or a permission-restore call against them. -/
theorem C4_owner_whitelist_allow (g : Guild) (u : User) (action : String)
    (target : Option Nat) (s : St) (env : Env)
    (h : is_whitelisted g u s = true) :
    decideAllow g u s = true ∧
    ∀ e ∈ (handle_suspicious_action g u action target s env).2,
      isBanEv e = false ∧ isRestoreEv e = false := by
  refine ⟨by simp [decideAllow, h], ?_⟩
  intro e he
  have h2 : is_whitelisted (get_alert_channel g env).2.1 u s = true := by
    rw [get_alert_preserves_wl]; exact h
  rcases handle_trace_sub g u action target s env e he with h1 | h1 | h1 | h1 | h1
  · subst h1; exact ⟨rfl, rfl⟩
  · cases e <;> simp [isAlertEv] at h1 ⊢ <;> simp [isBanEv, isRestoreEv]
  · cases e <;> simp [isMsgEv] at h1 ⊢ <;> simp [isBanEv, isRestoreEv]
  · rw [secure_ban_whitelisted _ _ _ _ _ h2] at h1
    simp at h1
  · exact tryDelete_trace action target e h1

/-- C4 witness: the guild owner creates a channel — allowed, and the
response trace contains no ban and no restore call. -/
theorem C4_witness :
    is_whitelisted guildA actorOwner initialSt = true ∧
    decideAllow guildA actorOwner initialSt = true ∧
    ∀ e ∈ (handle_suspicious_action guildA actorOwner "channel_create" (some 2)
        initialSt allOk).2,
      isBanEv e = false ∧ isRestoreEv e = false :=
  ⟨by decide,
   (C4_owner_whitelist_allow guildA actorOwner "channel_create" (some 2)
      initialSt allOk (by decide)).1,
   (C4_owner_whitelist_allow guildA actorOwner "channel_create" (some 2)
      initialSt allOk (by decide)).2⟩

/-- If a key is absent, filtering out its entries changes nothing. -/
theorem filter_ne_of_lookup_none {β : Type} (k : Nat) (l : List (Nat × β))
    (h : l.lookup k = none) : (l.filter fun p => p.1 != k) = l := by
  induction l with
  | nil => rfl
  | cons p rest ih =>
    rcases p with ⟨a, b⟩
    by_cases hk : k = a
    · subst hk
      simp [List.lookup] at h
    · have hkb : (k == a) = false := beq_eq_false_iff_ne.mpr hk
      have hab : (a != k) = true := by
        simp only [bne_iff_ne, ne_eq]
        exact fun hh => hk hh.symm
      simp only [List.lookup, hkb] at h
      simp [List.filter, hab, ih h]

/-- Capture `captureIfAbsent` for any guild preserves every existing snapshot
entry. -/
theorem captureIfAbsent_preserves_lookup (g' : Guild) (s : St) (gid : Nat)
    (snap : Snap) (h : s.original_permissions.lookup gid = some snap) :
    (captureIfAbsent g' s).1.original_permissions.lookup gid = some snap := by
  unfold captureIfAbsent
  split
  · exact h
  · next habs =>
    have hnone : s.original_permissions.lookup g'.id = none := by
      cases hl : s.original_permissions.lookup g'.id
      · rfl
      · rw [hl] at habs; simp at habs
    have hne : (gid == g'.id) = false := by
      simp only [beq_eq_false_iff_ne]
      intro hh
      rw [hh, hnone] at h
      cases h
    dsimp only [backup_permissions]
    simp only [List.lookup, hne, filter_ne_of_lookup_none g'.id _ hnone]
    exact h

/-- Function `secure_ban_and_restore` returns either the unchanged state or the
state after the snapshot capture. -/
theorem secure_ban_state_cases (g : Guild) (u : User) (reason : String)
    (s : St) (env : Env) :
    (secure_ban_and_restore g u reason s env).2.2.1 = s ∨
    (secure_ban_and_restore g u reason s env).2.2.1 = (captureIfAbsent g s).1 := by
  unfold secure_ban_and_restore
  split
  · exact Or.inl rfl
  · dsimp only
    split
    · exact Or.inr rfl
    · split <;> exact Or.inr rfl

/-- The post-alert tail returns either the unchanged state or the state
after the snapshot capture. -/
theorem afterAlert_state_cases (g : Guild) (u : User) (action : String)
    (target : Option Nat) (s : St) (env : Env) (alertCh : Option Channel)
    (acc : List Ev) :
    (afterAlert g u action target s env alertCh acc).1 = s ∨
    (afterAlert g u action target s env alertCh acc).1 = (captureIfAbsent g s).1 := by
  unfold afterAlert
  split
  · rcases alertCh with _ | ch <;> dsimp only
    · exact secure_ban_state_cases g u _ s env
    · split <;> exact secure_ban_state_cases g u _ s env
  · exact Or.inl rfl

/-- The handler returns either the unchanged state or the state after the
snapshot capture (for the guild as returned by alert resolution). -/
theorem handle_state_cases (g : Guild) (u : User) (action : String)
    (target : Option Nat) (s : St) (env : Env) :
    (handle_suspicious_action g u action target s env).1 = s ∨
    (handle_suspicious_action g u action target s env).1 =
      (captureIfAbsent (get_alert_channel g env).2.1 s).1 := by
  unfold handle_suspicious_action
  by_cases hr : g.botTopRole ≤ u.topRole
  · simp [hr]
  · simp only [hr, if_false]
    rcases hAC : (get_alert_channel g env).1 with _ | ch <;> dsimp only
    · exact afterAlert_state_cases _ _ _ _ _ _ _ _
    · split
      · exact afterAlert_state_cases _ _ _ _ _ _ _ _
      · exact Or.inl rfl

/-- The whitelist command touches only `whitelisted_users`. -/
theorem whitelist_preserves_op (g : Guild) (authorId : Nat) (action : String)
    (member : Option User) (s : St) :
    (whitelist_command g authorId action member s).1.original_permissions
      = s.original_permissions ∧
    (whitelist_command g authorId action member s).1.user_activity
      = s.user_activity := by
  simp only [whitelist_command]
  repeat' split
  all_goals exact ⟨rfl, rfl⟩

/-- One process operation never removes a stored snapshot entry. -/
theorem step_preserves_snapshot (s : St) (o : Op) (gid : Nat) (snap : Snap)
    (h : s.original_permissions.lookup gid = some snap) :
    (step s o).original_permissions.lookup gid = some snap := by
  cases o with
  | event g u a t env =>
    rcases handle_state_cases g u a t s env with hs | hs <;>
      simp only [step, hs]
    · exact h
    · exact captureIfAbsent_preserves_lookup _ s gid snap h
  | unlockCmd g env => exact h
  | whitelistCmd g aid act mem =>
    simp only [step, (whitelist_preserves_op g aid act mem s).1]
    exact h
  | prune now => exact h

/-- No sequence of process operations removes a stored snapshot entry. -/
theorem foldl_preserves_snapshot (ops : List Op) (s : St) (gid : Nat)
    (snap : Snap) (h : s.original_permissions.lookup gid = some snap) :
    ((ops.foldl step s).original_permissions.lookup gid) = some snap := by
  induction ops generalizing s with
  | nil => exact h
  | cons o rest ih => exact ih _ (step_preserves_snapshot s o gid snap h)

/-- C7: once a snapshot exists for a guild, no sequence of operations
(events, commands, prune passes — restores included, which never write the
store) removes it, and every later restore for that guild replays exactly
that first-captured baseline. -/
theorem C7_snapshot_never_cleared (g : Guild) (s : St) (snap : Snap)
    (h : s.original_permissions.lookup g.id = some snap) :
    (∀ ops : List Op,
      ((ops.foldl step s).original_permissions.lookup g.id) = some snap) ∧
    (∀ ops : List Op, ∀ env : Env,
      restore_permissions g (ops.foldl step s) env = restoreWith g snap env) := by
  constructor
  · intro ops
    exact foldl_preserves_snapshot ops s g.id snap h
  · intro ops env
    unfold restore_permissions
    rw [foldl_preserves_snapshot ops s g.id snap h]

/-- C7 witness: after capturing the scenario guild's snapshot, a prune pass
and an owner event leave the entry intact, and a later restore replays the
captured baseline. -/
theorem C7_witness :
    (backup_permissions guildA initialSt).original_permissions.lookup guildA.id
        = some (snapshotOf guildA) ∧
    (([Op.prune 0, Op.event guildA actorOwner "channel_create" (some 2) allOk].foldl
        step (backup_permissions guildA initialSt)).original_permissions.lookup
        guildA.id) = some (snapshotOf guildA) ∧
    restore_permissions guildA
        ([Op.prune 0].foldl step (backup_permissions guildA initialSt)) allOk
      = restoreWith guildA (snapshotOf guildA) allOk :=
  ⟨lookup_backup guildA initialSt,
   (C7_snapshot_never_cleared guildA (backup_permissions guildA initialSt)
      (snapshotOf guildA) (lookup_backup guildA initialSt)).1
     [Op.prune 0, Op.event guildA actorOwner "channel_create" (some 2) allOk],
   (C7_snapshot_never_cleared guildA (backup_permissions guildA initialSt)
      (snapshotOf guildA) (lookup_backup guildA initialSt)).2 [Op.prune 0] allOk⟩

/-- Capturing a snapshot writes only `original_permissions`. -/
theorem captureIfAbsent_preserves_ua (g : Guild) (s : St) :
    (captureIfAbsent g s).1.user_activity = s.user_activity := by
  unfold captureIfAbsent
  split <;> rfl

/-- C10: starting from the empty initial state, no sequence of events,
commands and prune passes ever puts an entry into the activity ledger
`user_activity` — it stays empty for the whole process lifetime, and in
particular every prune pass maps the empty ledger to itself. -/
theorem C10_activity_ledger_inert (ops : List Op) :
    (ops.foldl step initialSt).user_activity = [] := by
  suffices h : ∀ s : St, s.user_activity = [] →
      (ops.foldl step s).user_activity = [] by
    exact h initialSt rfl
  induction ops with
  | nil => exact fun s hs => hs
  | cons o rest ih =>
    intro s hs
    apply ih
    cases o with
    | event g u a t env =>
      rcases handle_state_cases g u a t s env with h1 | h1 <;>
        simp only [step, h1]
      · exact hs
      · rw [captureIfAbsent_preserves_ua]
        exact hs
    | unlockCmd g env => exact hs
    | whitelistCmd g aid act mem =>
      simp only [step, (whitelist_preserves_op g aid act mem s).2]
      exact hs
    | prune now =>
      simp only [step]
      rw [hs]
      rfl

/-- C9: for every action type ending in `_create` with a captured target,
if the actor's top role rank is below the bot's and the message sends
succeed, the created object's deletion is attempted — regardless of whether
the actor is whitelisted (the owner included) and regardless of whether the
ban succeeded, failed, or was skipped. -/
theorem C9_created_target_always_deleted (g : Guild) (u : User)
    (action : String) (tid : Nat) (s : St) (env : Env)
    (hrank : ¬ g.botTopRole ≤ u.topRole)
    (hcr : pyEndsWith action "_create" = true)
    (hsendE : ∀ c a uid, env (Ev.sendEmbed c a uid) = true)
    (hsendM : ∀ c m, env (Ev.sendMsg c m) = true) :
    Ev.deleteTarget tid "Suspicious creation" ∈
      (handle_suspicious_action g u action (some tid) s env).2 := by
  have htd : Ev.deleteTarget tid "Suspicious creation" ∈
      tryDeleteTarget action (some tid) := by
    simp [tryDeleteTarget, hcr]
  have haft : ∀ (g2 : Guild) (alertCh : Option Channel) (acc : List Ev),
      Ev.deleteTarget tid "Suspicious creation" ∈
        (afterAlert g2 u action (some tid) s env alertCh acc).2 := by
    intro g2 alertCh acc
    unfold afterAlert
    rcases alertCh with _ | ch <;> dsimp only <;> split <;>
      simp [hsendM, List.mem_append, htd]
  unfold handle_suspicious_action
  simp only [hrank, if_false]
  rcases hAC : (get_alert_channel g env).1 with _ | ch <;> dsimp only
  · exact haft _ _ _
  · simp only [hsendE, if_true]
    exact haft _ _ _

/-- C9 witness: the whitelisted guild owner creates a channel in an
environment where the ban call would fail — the deletion of the created
channel is still attempted. -/
theorem C9_witness :
    Ev.deleteTarget 2 "Suspicious creation" ∈
      (handle_suspicious_action guildA actorOwner "channel_create" (some 2)
          initialSt envBanFail).2 :=
  C9_created_target_always_deleted guildA actorOwner "channel_create" 2
    initialSt envBanFail (by decide) (by decide) (fun _ _ _ => rfl)
    (fun _ _ => rfl)

/-- Overwrite application emits only restore-kind calls. -/
theorem applyOverwrites_trace_kinds (chId : Nat) (ows : List (Nat × Nat))
    (env : Env) :
    ∀ e ∈ (applyOverwrites chId ows env).2, isRestoreEv e = true := by
  induction ows with
  | nil => simp [applyOverwrites]
  | cons p rest ih =>
    rcases p with ⟨t, o⟩
    unfold applyOverwrites
    dsimp only
    split
    · intro e he
      rcases he with _ | ⟨_, he⟩
      · rfl
      · exact ih e he
    · simp [isRestoreEv]

/-- The channel-restore loop emits only restore-kind calls. -/
theorem restoreChannels_trace_kinds (chs : List Channel)
    (snapCh : List (Nat × List (Nat × Nat))) (env : Env) :
    ∀ e ∈ (restoreChannels chs snapCh env).2, isRestoreEv e = true := by
  induction chs with
  | nil => simp [restoreChannels]
  | cons c rest ih =>
    unfold restoreChannels
    dsimp only
    split
    · exact ih
    · split
      · split
        · intro e he
          rcases he with _ | ⟨_, he⟩
          · rfl
          · rcases List.mem_append.mp he with he | he
            · exact applyOverwrites_trace_kinds _ _ _ e he
            · exact ih e he
        · intro e he
          rcases he with _ | ⟨_, he⟩
          · rfl
          · exact applyOverwrites_trace_kinds _ _ _ e he
      · simp [isRestoreEv]

/-- A restore attempt emits only restore-kind calls. -/
theorem restore_trace_kinds (g : Guild) (s : St) (env : Env) :
    ∀ e ∈ (restore_permissions g s env).2, isRestoreEv e = true := by
  unfold restore_permissions
  split
  · simp
  · unfold restoreWith
    dsimp only
    split
    · intro e he
      rcases he with _ | ⟨_, he⟩
      · rfl
      · exact restoreChannels_trace_kinds _ _ _ e he
    · simp [isRestoreEv]

/-- Every call of the mitigation is a capture read, the ban, or a
restore-kind call. -/
theorem secure_ban_trace_kinds (g : Guild) (u : User) (reason : String)
    (s : St) (env : Env) :
    ∀ e ∈ (secure_ban_and_restore g u reason s env).2.2.2,
      isCaptureEv e = true ∨ isBanEv e = true ∨ isRestoreEv e = true := by
  have hcap : ∀ e ∈ (captureIfAbsent g s).2, isCaptureEv e = true := by
    unfold captureIfAbsent
    split <;> simp [isCaptureEv]
  unfold secure_ban_and_restore
  split
  · simp
  · dsimp only
    split
    · intro e he
      exact Or.inl (hcap e he)
    · split
      · intro e he
        rcases List.mem_append.mp he with he | he
        · exact Or.inl (hcap e he)
        · rcases he with _ | ⟨_, he⟩
          · exact Or.inr (Or.inl rfl)
          · exact Or.inr (Or.inr (restore_trace_kinds _ _ _ e he))
      · intro e he
        rcases List.mem_append.mp he with he | he
        · exact Or.inl (hcap e he)
        · rcases he with _ | ⟨_, he⟩
          · exact Or.inr (Or.inl rfl)
          · cases he


/-- With every call succeeding, alert resolution always yields a channel. -/
theorem get_alert_allOk_ne_none (g : Guild) :
    (get_alert_channel g allOk).1 ≠ none := by
  unfold get_alert_channel
  split
  · simp
  · dsimp only [allOk]
    simp

/-- A list with a pointwise-false predicate has `any` false. -/
theorem any_eq_false_of {α : Type} (p : α → Bool) (l : List α)
    (h : ∀ e ∈ l, p e = false) : l.any p = false := by
  simp only [List.any_eq_false]
  intro x hx
  simp [h x hx]

/-- Capture, ban and restore calls are neither alerts, deletions, nor
status messages. -/
theorem kind_not_alert_delete (e : Ev)
    (h : isCaptureEv e = true ∨ isBanEv e = true ∨ isRestoreEv e = true) :
    isAlertEv e = false ∧ isDeleteEv e = false ∧ isMsgEv e = false := by
  cases e <;>
    simp_all [isCaptureEv, isBanEv, isRestoreEv, isAlertEv, isDeleteEv, isMsgEv]

/-- After the guarded capture, a snapshot for the guild is stored. -/
theorem captureIfAbsent_lookup_isSome (g : Guild) (s : St) :
    ((captureIfAbsent g s).1.original_permissions.lookup g.id).isSome = true := by
  unfold captureIfAbsent
  split
  · next h => exact h
  · rw [lookup_backup]
    rfl

/-- For a non-whitelisted lower-rank actor with all calls succeeding, the
mitigation's restore really edits the default role. -/
theorem editDefault_mem_secure_ban_allOk (g : Guild) (u : User)
    (reason : String) (s : St) (hwl : is_whitelisted g u s = false)
    (hrank : ¬ g.botTopRole ≤ u.topRole) :
    ∃ p, Ev.editDefaultRole g.id p ∈
      (secure_ban_and_restore g u reason s allOk).2.2.2 := by
  obtain ⟨snap, hsnap⟩ :=
    Option.isSome_iff_exists.mp (captureIfAbsent_lookup_isSome g s)
  refine ⟨snap.everyone, ?_⟩
  have hr : (restore_permissions g (captureIfAbsent g s).1 allOk).2
      = Ev.editDefaultRole g.id snap.everyone
          :: (restoreChannels g.textChannels snap.channels allOk).2 := by
    unfold restore_permissions
    rw [hsnap]
    rfl
  simp only [secure_ban_and_restore, hwl, Bool.false_eq_true, if_false, hrank]
  dsimp only [allOk]
  simp [hr, List.mem_append]

/-- Trace decomposition of a mitigated action with every call succeeding:
alert-channel creation calls, the alert embed, the mitigation calls, the
status message, then the deletion step. -/
theorem handle_allOk_trace (g : Guild) (u : User) (action : String)
    (target : Option Nat) (s : St)
    (hrank : ¬ g.botTopRole ≤ u.topRole)
    (hact : mitigationActions.contains action = true) :
    ∃ ch : Channel,
      (handle_suspicious_action g u action target s allOk).2 =
        (get_alert_channel g allOk).2.2 ++ [Ev.sendEmbed ch.id action u.id] ++
        (secure_ban_and_restore (get_alert_channel g allOk).2.1 u
            ("Suspicious: " ++ action) s allOk).2.2.2 ++
        [Ev.sendMsg ch.id ("Action taken: " ++
            (secure_ban_and_restore (get_alert_channel g allOk).2.1 u
              ("Suspicious: " ++ action) s allOk).2.1)] ++
        tryDeleteTarget action target := by
  rcases hAC : (get_alert_channel g allOk).1 with _ | ch
  · exact absurd hAC (get_alert_allOk_ne_none g)
  · refine ⟨ch, ?_⟩
    have hmem : action ∈ mitigationActions := by simpa using hact
    simp [handle_suspicious_action, afterAlert, hAC, hrank, hmem, allOk,
      List.append_assoc]

/-- Trace decomposition of a non-mitigated action with every call
succeeding: alert-channel creation calls, the alert embed, then the
deletion step. -/
theorem handle_allOk_trace_nonmit (g : Guild) (u : User) (action : String)
    (target : Option Nat) (s : St)
    (hrank : ¬ g.botTopRole ≤ u.topRole)
    (hact : mitigationActions.contains action = false) :
    ∃ ch : Channel,
      (handle_suspicious_action g u action target s allOk).2 =
        (get_alert_channel g allOk).2.2 ++ [Ev.sendEmbed ch.id action u.id] ++
        tryDeleteTarget action target := by
  rcases hAC : (get_alert_channel g allOk).1 with _ | ch
  · exact absurd hAC (get_alert_allOk_ne_none g)
  · refine ⟨ch, ?_⟩
    have hmem : action ∉ mitigationActions := by simpa using hact
    simp [handle_suspicious_action, afterAlert, hAC, hrank, hmem, allOk,
      List.append_assoc]

/-- Effect set of a mitigated action for an escalated actor, all calls
succeeding: alert, ban and restore happen; deletion happens exactly when
the deletion step emits it. -/
theorem handle_effects_mitigated (g : Guild) (u : User) (action : String)
    (target : Option Nat) (s : St)
    (hwl : is_whitelisted g u s = false)
    (hrank : ¬ g.botTopRole ≤ u.topRole)
    (hact : mitigationActions.contains action = true) :
    effects (handle_suspicious_action g u action target s allOk).2
      = (true, true, true, (tryDeleteTarget action target).any isDeleteEv) := by
  obtain ⟨ch, htr⟩ := handle_allOk_trace g u action target s hrank hact
  have hwl2 : is_whitelisted (get_alert_channel g allOk).2.1 u s = false := by
    rw [get_alert_preserves_wl]
    exact hwl
  have hrank2 : ¬ (get_alert_channel g allOk).2.1.botTopRole ≤ u.topRole := by
    rw [(get_alert_guild_fields g allOk).2.2.1]
    exact hrank
  have hban := ban_mem_secure_ban (get_alert_channel g allOk).2.1 u
    ("Suspicious: " ++ action) s allOk hwl2 hrank2
  obtain ⟨p, hrest⟩ := editDefault_mem_secure_ban_allOk
    (get_alert_channel g allOk).2.1 u ("Suspicious: " ++ action) s hwl2 hrank2
  have hkinds := secure_ban_trace_kinds (get_alert_channel g allOk).2.1 u
    ("Suspicious: " ++ action) s allOk
  have hga := get_alert_trace g allOk
  have hb : ((secure_ban_and_restore (get_alert_channel g allOk).2.1 u
      ("Suspicious: " ++ action) s allOk).2.2.2.any isBanEv) = true :=
    List.any_eq_true.mpr ⟨_, hban, rfl⟩
  have hrs : ((secure_ban_and_restore (get_alert_channel g allOk).2.1 u
      ("Suspicious: " ++ action) s allOk).2.2.2.any isRestoreEv) = true :=
    List.any_eq_true.mpr ⟨_, hrest, rfl⟩
  have h1 : ((get_alert_channel g allOk).2.2.any isDeleteEv) = false :=
    any_eq_false_of _ _ fun e he => by rw [hga e he]; rfl
  have h2 : ((secure_ban_and_restore (get_alert_channel g allOk).2.1 u
      ("Suspicious: " ++ action) s allOk).2.2.2.any isDeleteEv) = false :=
    any_eq_false_of _ _ fun e he => (kind_not_alert_delete e (hkinds e he)).2.1
  unfold effects
  rw [htr]
  simp [List.any_append, hb, hrs, h1, h2, isAlertEv, isDeleteEv]

/-- Effect set of a non-mitigated action (`ban`, `kick`) with no captured
target, all calls succeeding: the alert only. -/
theorem handle_effects_alert_only (g : Guild) (u : User) (action : String)
    (s : St) (hrank : ¬ g.botTopRole ≤ u.topRole)
    (hact : mitigationActions.contains action = false) :
    effects (handle_suspicious_action g u action none s allOk).2
      = (true, false, false, false) := by
  obtain ⟨ch, htr⟩ := handle_allOk_trace_nonmit g u action none s hrank hact
  have hga := get_alert_trace g allOk
  have hb : ((get_alert_channel g allOk).2.2.any isBanEv) = false :=
    any_eq_false_of _ _ fun e he => by rw [hga e he]; rfl
  have hrs : ((get_alert_channel g allOk).2.2.any isRestoreEv) = false :=
    any_eq_false_of _ _ fun e he => by rw [hga e he]; rfl
  have hd : ((get_alert_channel g allOk).2.2.any isDeleteEv) = false :=
    any_eq_false_of _ _ fun e he => by rw [hga e he]; rfl
  unfold effects
  rw [htr]
  simp [List.any_append, hb, hrs, hd, tryDeleteTarget,
    isAlertEv, isBanEv, isRestoreEv, isDeleteEv]

/-- C8: for an escalated (non-whitelisted, lower-rank) actor with every
platform call succeeding, the per-action-type effect set is exactly:
`channel_create` and `role_create` (with captured target) → alert + ban +
restore + delete; `channel_delete`, `role_delete`, `bot_add` (no target) →
alert + ban + restore, no delete; `ban` and `kick` → alert only. -/
theorem C8_per_action_effect_sets (g : Guild) (u : User) (s : St)
    (hwl : is_whitelisted g u s = false)
    (hrank : ¬ g.botTopRole ≤ u.topRole) :
    (∀ tid : Nat,
      effects (handle_suspicious_action g u "channel_create" (some tid) s allOk).2
          = (true, true, true, true) ∧
      effects (handle_suspicious_action g u "role_create" (some tid) s allOk).2
          = (true, true, true, true)) ∧
    effects (handle_suspicious_action g u "channel_delete" none s allOk).2
        = (true, true, true, false) ∧
    effects (handle_suspicious_action g u "role_delete" none s allOk).2
        = (true, true, true, false) ∧
    effects (handle_suspicious_action g u "bot_add" none s allOk).2
        = (true, true, true, false) ∧
    effects (handle_suspicious_action g u "ban" none s allOk).2
        = (true, false, false, false) ∧
    effects (handle_suspicious_action g u "kick" none s allOk).2
        = (true, false, false, false) := by
  have hcc : pyEndsWith "channel_create" "_create" = true := by decide
  have hrc : pyEndsWith "role_create" "_create" = true := by decide
  refine ⟨fun tid => ⟨?_, ?_⟩, ?_, ?_, ?_, ?_, ?_⟩
  · rw [handle_effects_mitigated g u _ _ s hwl hrank (by decide)]
    simp [tryDeleteTarget, hcc, isDeleteEv]
  · rw [handle_effects_mitigated g u _ _ s hwl hrank (by decide)]
    simp [tryDeleteTarget, hrc, isDeleteEv]
  · rw [handle_effects_mitigated g u _ _ s hwl hrank (by decide)]
    rfl
  · rw [handle_effects_mitigated g u _ _ s hwl hrank (by decide)]
    rfl
  · rw [handle_effects_mitigated g u _ _ s hwl hrank (by decide)]
    rfl
  · exact handle_effects_alert_only g u "ban" s hrank (by decide)
  · exact handle_effects_alert_only g u "kick" s hrank (by decide)

/-- C8 witness: concrete effect sets for the scenario guild and actor — a
channel creation yields all four effects, a kick yields the alert only. -/
theorem C8_witness :
    effects (handle_suspicious_action guildA actorA "channel_create" (some 2)
        initialSt allOk).2 = (true, true, true, true) ∧
    effects (handle_suspicious_action guildA actorA "kick" none
        initialSt allOk).2 = (true, false, false, false) :=
  ⟨((C8_per_action_effect_sets guildA actorA initialSt (by decide)
      (by decide)).1 2).1,
   (C8_per_action_effect_sets guildA actorA initialSt (by decide)
      (by decide)).2.2.2.2.2⟩

end Guard
